import Mathlib

/-!
# Verification of the `total` prediction-market repository

Shallow embedding of the Go sources of `mtlprog/total` and proofs about them.

Conventions of the embedding:

* Go `float64` arithmetic is modelled by exact real arithmetic (`ℝ`);
  `math.Exp`, `math.Log` and `math.Max` become `Real.exp`, `Real.log`, `max`.
* Go functions returning `(T, error)` become functions into `Except Err T`
  (or `Option Err` when only the error matters), with the source's error
  values as constructors and the source's sequence of early returns kept as
  nested `if`s in source order.
* Go `int64` / `uint64` become `Int` with explicit two's-complement
  reduction `% 2^64` where the source casts or may wrap.
* Go strings become `String`; `strings.TrimSpace`, `len` (bytes) and
  `strings.HasPrefix` are modelled on `String.data` so that all string
  operations are structurally computable.
-/

namespace lmsr

/-- Errors of the Go package `lmsr` (`part_000`). -/
inductive Err where
  | invalidOutcome
  | negativeAmount
  | invalidLiquidity
  | negativeQuantities
  | insufficientTokens
  deriving DecidableEq

noncomputable section

/-- `New(liquidityParam)`: returns the calculator's `b` or `ErrInvalidLiquidity`
for `liquidityParam <= 0`. -/
def New (liquidityParam : ℝ) : Except Err ℝ :=
  if liquidityParam ≤ 0 then Except.error Err.invalidLiquidity
  else Except.ok liquidityParam

/-- `Calculator.cost`: `C(q) = b * ln(exp(qYes/b) + exp(qNo/b))` computed with
the source's log-sum-exp trick:
`b * (maxQ/b + Log(Exp((qYes-maxQ)/b) + Exp((qNo-maxQ)/b)))` with
`maxQ = max qYes qNo`. -/
def cost (b qYes qNo : ℝ) : ℝ :=
  b * (max qYes qNo / b +
    Real.log (Real.exp ((qYes - max qYes qNo) / b) +
      Real.exp ((qNo - max qYes qNo) / b)))

/-- The LMSR cost function `C(a, b_q) = b · ln(e^{a/b} + e^{b_q/b})` exactly as
the spec writes it (§4.1); reference definition to compare the source's
log-sum-exp implementation `cost` against. -/
def costSpec (b qYes qNo : ℝ) : ℝ :=
  b * Real.log (Real.exp (qYes / b) + Real.exp (qNo / b))

/-- `Calculator.Price`: rejects negative quantities, otherwise returns
`(expYes/sum, expNo/sum)` with `expYes = exp(qYes/b)`, `expNo = exp(qNo/b)`,
`sum = expYes + expNo`. -/
def Price (b qYes qNo : ℝ) : Except Err (ℝ × ℝ) :=
  if qYes < 0 ∨ qNo < 0 then Except.error Err.negativeQuantities
  else Except.ok
    (Real.exp (qYes / b) / (Real.exp (qYes / b) + Real.exp (qNo / b)),
     Real.exp (qNo / b) / (Real.exp (qYes / b) + Real.exp (qNo / b)))

/-- `Calculator.CalculateCost`: cost to buy `amount` tokens of `outcome`,
`costAfter - costBefore`, with the source's checks in source order. -/
def CalculateCost (b qYes qNo amount : ℝ) (outcome : String) : Except Err ℝ :=
  if amount ≤ 0 then Except.error Err.negativeAmount
  else if qYes < 0 ∨ qNo < 0 then Except.error Err.negativeQuantities
  else if outcome = "YES" then
    Except.ok (cost b (qYes + amount) qNo - cost b qYes qNo)
  else if outcome = "NO" then
    Except.ok (cost b qYes (qNo + amount) - cost b qYes qNo)
  else Except.error Err.invalidOutcome

/-- `Calculator.CalculateSellReturn`: collateral returned for selling `amount`
tokens of `outcome`, `costBefore - costAfter`, failing with
`ErrInsufficientTokens` when the outstanding quantity is below `amount`. -/
def CalculateSellReturn (b qYes qNo amount : ℝ) (outcome : String) :
    Except Err ℝ :=
  if amount ≤ 0 then Except.error Err.negativeAmount
  else if qYes < 0 ∨ qNo < 0 then Except.error Err.negativeQuantities
  else if outcome = "YES" then
    if qYes < amount then Except.error Err.insufficientTokens
    else Except.ok (cost b qYes qNo - cost b (qYes - amount) qNo)
  else if outcome = "NO" then
    if qNo < amount then Except.error Err.insufficientTokens
    else Except.ok (cost b qYes qNo - cost b qYes (qNo - amount))
  else Except.error Err.invalidOutcome

/-- `Calculator.InitialLiquidity`: the worst-case loss `b * ln 2`. -/
def InitialLiquidity (b : ℝ) : ℝ :=
  b * Real.log 2

end

end lmsr

namespace model

/-- Validation errors of the Go package `model` (`internal/model/market.go`);
only the ones the claims mention, plus a constructor covering the errors of
`soroban.ValidateContractID`, whose source is not part of the repository
snapshot and which `TradeRequest.Validate` merely propagates. -/
inductive Err where
  | invalidOutcome
  | invalidPublicKey
  | invalidShareAmount
  | invalidSlippage
  | contractID
  deriving DecidableEq

/-- `strings.TrimSpace`: drop leading and trailing whitespace. -/
def trimSpace (s : String) : String :=
  ⟨((s.data.dropWhile Char.isWhitespace).reverse.dropWhile
      Char.isWhitespace).reverse⟩

/-- Go `len` on a string: its UTF-8 byte length. -/
def utf8Len (s : String) : Nat :=
  s.data.foldl (fun n c => n + c.utf8Size) 0

/-- `strings.HasPrefix s p`. -/
def goStartsWith (s p : String) : Bool :=
  p.data.isPrefixOf s.data

/-- `MaxSlippage = 0.10` (10%). -/
def MaxSlippage : ℝ := 0.10

/-- `Outcome.IsValid`: `o == OutcomeYes || o == OutcomeNo`. -/
def OutcomeIsValid (o : String) : Bool :=
  o == "YES" || o == "NO"

/-- `model.ValidateStellarPublicKey`: trim, then require length 56 (bytes)
and prefix `"G"`. -/
def ValidateStellarPublicKey (key : String) : Option Err :=
  if utf8Len (trimSpace key) ≠ 56 then some Err.invalidPublicKey
  else if !goStartsWith (trimSpace key) "G" then some Err.invalidPublicKey
  else none

end model

namespace service

/-- `service.TradeRequest` (`internal/service/market.go`). -/
structure TradeRequest where
  UserPublicKey : String
  ContractID : String
  Outcome : String
  ShareAmount : ℝ
  Slippage : ℝ

noncomputable section

/-- `TradeRequest.Validate`. The checks run in source order: user public key,
contract ID, outcome, share amount, slippage. `soroban.ValidateContractID`
is not part of the repository snapshot, so the definition is parametric in
it (`cv`). -/
def TradeRequest.Validate (r : TradeRequest)
    (cv : String → Option model.Err) : Option model.Err :=
  match model.ValidateStellarPublicKey r.UserPublicKey with
  | some e => some e
  | none =>
    match cv r.ContractID with
    | some e => some e
    | none =>
      if !model.OutcomeIsValid r.Outcome then some model.Err.invalidOutcome
      else if r.ShareAmount ≤ 0 then some model.Err.invalidShareAmount
      else if r.Slippage ≤ 0 ∨ r.Slippage > model.MaxSlippage then
        some model.Err.invalidSlippage
      else none

/-- Errors of `DeployMarketRequest.Validate` (`part_006`): the two named
errors plus the `fmt.Errorf` funding error. -/
inductive DeployErr where
  | invalidLiquidityParam
  | invalidMetadataHash
  | fundingTooLow
  deriving DecidableEq

/-- `service.DeployMarketRequest` (`part_006`). -/
structure DeployMarketRequest where
  LiquidityParam : ℝ
  MetadataHash : String
  InitialFunding : ℝ

/-- `DeployMarketRequest.Validate`: `b > 0`, non-empty metadata hash, and
`InitialFunding >= LiquidityParam * 0.7` (the source's comment reads
"Initial funding must be at least 70% of liquidity param (b * ln(2) ≈ 0.693)"). -/
def DeployMarketRequest.Validate (r : DeployMarketRequest) :
    Option DeployErr :=
  if r.LiquidityParam ≤ 0 then some DeployErr.invalidLiquidityParam
  else if r.MetadataHash = "" then some DeployErr.invalidMetadataHash
  else if r.InitialFunding < r.LiquidityParam * 0.7 then
    some DeployErr.fundingTooLow
  else none

/-- Wrap of Go `int64` addition (two's complement). -/
def i64wrap (x : Int) : Int :=
  (x + 2 ^ 63) % 2 ^ 64 - 2 ^ 63

/-- The source's clamp `if price < 0.01 { price = 0.01 }`. -/
def clamp01 (price : ℝ) : ℝ :=
  if price < 0.01 then 0.01 else price

/-- `service.calculatePrices` (`part_006`): display-price estimate from
quantities alone (the liquidity parameter `b` is not an argument). Source
order: the `(0, 0)` shortcut, the `total == 0` shortcut (`total` is the
`int64` sum `yesSold + noSold`, wrapping on overflow), the ratio prices
`yesSold/total` and `noSold/total`, clamping both at `0.01`, and
normalization by their sum. -/
def calculatePrices (yesSold noSold : Int) : ℝ × ℝ :=
  if yesSold = 0 ∧ noSold = 0 then (0.5, 0.5)
  else if (i64wrap (yesSold + noSold) : ℝ) = 0 then (0.5, 0.5)
  else
    (clamp01 ((yesSold : ℝ) / (i64wrap (yesSold + noSold) : ℝ)) /
      (clamp01 ((yesSold : ℝ) / (i64wrap (yesSold + noSold) : ℝ)) +
        clamp01 ((noSold : ℝ) / (i64wrap (yesSold + noSold) : ℝ))),
     clamp01 ((noSold : ℝ) / (i64wrap (yesSold + noSold) : ℝ)) /
      (clamp01 ((yesSold : ℝ) / (i64wrap (yesSold + noSold) : ℝ)) +
        clamp01 ((noSold : ℝ) / (i64wrap (yesSold + noSold) : ℝ))))

end

end service

namespace soroban

/-- `xdr.ScVal`, restricted to the shapes the decoding helpers distinguish:
an `I128` with parts `hi : int64`, `lo : uint64`, or some other `ScVal`
payload (`U32`, `Bool`, ...). -/
inductive ScVal where
  | i128 (hi : Int) (lo : Int)
  | u32 (v : Int)
  | boolVal (b : Bool)
  deriving DecidableEq

/-- `soroban.EncodeI128` (`internal/soroban/contract.go`): `hi = 0` for
`value >= 0`, `hi = -1` otherwise; `lo = uint64(value)`, i.e. the value
two's-complement-reduced mod `2^64`. -/
def EncodeI128 (value : Int) : ScVal :=
  if 0 ≤ value then ScVal.i128 0 (value % 2 ^ 64)
  else ScVal.i128 (-1) (value % 2 ^ 64)

/-- `soroban.DecodeI128`: accepts `hi = 0` with `lo <= MaxInt64` (result
`int64(lo) = lo`) or `hi = -1` with `lo > MaxInt64` (result
`int64(lo) = lo - 2^64`); anything else is an error. -/
def DecodeI128 : ScVal → Except String Int
  | ScVal.i128 hi lo =>
    if hi = 0 ∧ lo ≤ 2 ^ 63 - 1 then Except.ok lo
    else if hi = -1 ∧ lo > 2 ^ 63 - 1 then Except.ok (lo - 2 ^ 64)
    else Except.error "I128 value too large for int64"
  | _ => Except.error "not an I128 value"

end soroban

namespace lmsr

/-- The log-sum-exp computation of `cost` agrees with the plain LMSR cost
function of the spec whenever `b ≠ 0`. -/
theorem cost_eq_costSpec (b x y : ℝ) (hb : b ≠ 0) :
    cost b x y = costSpec b x y := by
  have hm : Real.exp ((x - max x y) / b) + Real.exp ((y - max x y) / b) =
      (Real.exp (x / b) + Real.exp (y / b)) / Real.exp (max x y / b) := by
    rw [sub_div, sub_div, Real.exp_sub, Real.exp_sub, div_add_div_same]
  unfold cost costSpec
  rw [hm, Real.log_div (by positivity) (by positivity), Real.log_exp]
  ring

/-- `cost` is symmetric in the two quantities. -/
theorem cost_comm (b x y : ℝ) : cost b x y = cost b y x := by
  unfold cost
  rw [max_comm, add_comm (Real.exp ((x - max y x) / b))]

/-- `Price` on non-negative quantities takes the success branch. -/
theorem Price_ok (b qYes qNo : ℝ) (hY : 0 ≤ qYes) (hN : 0 ≤ qNo) :
    Price b qYes qNo = Except.ok
      (Real.exp (qYes / b) / (Real.exp (qYes / b) + Real.exp (qNo / b)),
       Real.exp (qNo / b) / (Real.exp (qYes / b) + Real.exp (qNo / b))) := by
  unfold Price
  rw [if_neg (by push_neg; exact ⟨hY, hN⟩)]

/-- `CalculateCost` on a valid YES buy. -/
theorem CalculateCost_yes (b qYes qNo amount : ℝ) (ha : 0 < amount)
    (hY : 0 ≤ qYes) (hN : 0 ≤ qNo) :
    CalculateCost b qYes qNo amount "YES" =
      Except.ok (cost b (qYes + amount) qNo - cost b qYes qNo) := by
  unfold CalculateCost
  rw [if_neg (not_le.mpr ha), if_neg (by push_neg; exact ⟨hY, hN⟩), if_pos rfl]

/-- `CalculateCost` on a valid NO buy. -/
theorem CalculateCost_no (b qYes qNo amount : ℝ) (ha : 0 < amount)
    (hY : 0 ≤ qYes) (hN : 0 ≤ qNo) :
    CalculateCost b qYes qNo amount "NO" =
      Except.ok (cost b qYes (qNo + amount) - cost b qYes qNo) := by
  unfold CalculateCost
  rw [if_neg (not_le.mpr ha), if_neg (by push_neg; exact ⟨hY, hN⟩),
    if_neg (by decide), if_pos rfl]

/-- `CalculateSellReturn` on a covered YES sell. -/
theorem CalculateSellReturn_yes_ok (b qYes qNo amount : ℝ) (ha : 0 < amount)
    (haq : amount ≤ qYes) (hN : 0 ≤ qNo) :
    CalculateSellReturn b qYes qNo amount "YES" =
      Except.ok (cost b qYes qNo - cost b (qYes - amount) qNo) := by
  unfold CalculateSellReturn
  rw [if_neg (not_le.mpr ha),
    if_neg (by push_neg; exact ⟨le_trans ha.le haq, hN⟩), if_pos rfl,
    if_neg (not_lt.mpr haq)]

/-- `CalculateSellReturn` on an over-sized YES sell. -/
theorem CalculateSellReturn_yes_err (b qYes qNo amount : ℝ) (ha : 0 < amount)
    (hqa : qYes < amount) (hY : 0 ≤ qYes) (hN : 0 ≤ qNo) :
    CalculateSellReturn b qYes qNo amount "YES" =
      Except.error Err.insufficientTokens := by
  unfold CalculateSellReturn
  rw [if_neg (not_le.mpr ha), if_neg (by push_neg; exact ⟨hY, hN⟩), if_pos rfl,
    if_pos hqa]

/-- `CalculateSellReturn` on a covered NO sell. -/
theorem CalculateSellReturn_no_ok (b qYes qNo amount : ℝ) (ha : 0 < amount)
    (haq : amount ≤ qNo) (hY : 0 ≤ qYes) :
    CalculateSellReturn b qYes qNo amount "NO" =
      Except.ok (cost b qYes qNo - cost b qYes (qNo - amount)) := by
  unfold CalculateSellReturn
  rw [if_neg (not_le.mpr ha),
    if_neg (by push_neg; exact ⟨hY, le_trans ha.le haq⟩), if_neg (by decide),
    if_pos rfl, if_neg (not_lt.mpr haq)]

/-- `CalculateSellReturn` on an over-sized NO sell. -/
theorem CalculateSellReturn_no_err (b qYes qNo amount : ℝ) (ha : 0 < amount)
    (hqa : qNo < amount) (hY : 0 ≤ qYes) (hN : 0 ≤ qNo) :
    CalculateSellReturn b qYes qNo amount "NO" =
      Except.error Err.insufficientTokens := by
  unfold CalculateSellReturn
  rw [if_neg (not_le.mpr ha), if_neg (by push_neg; exact ⟨hY, hN⟩),
    if_neg (by decide), if_pos rfl, if_pos hqa]

/-- C1: for every `b > 0` and `qYes, qNo ≥ 0`, `Calculator.Price` succeeds
with both prices in `[0, 1]` and `priceYes + priceNo = 1` exactly; a negative
quantity yields `ErrNegativeQuantities` instead. -/
theorem price_range_and_sum (b qYes qNo : ℝ) (hb : 0 < b) :
    (0 ≤ qYes → 0 ≤ qNo → ∃ priceYes priceNo : ℝ,
      Price b qYes qNo = Except.ok (priceYes, priceNo) ∧
      0 ≤ priceYes ∧ priceYes ≤ 1 ∧ 0 ≤ priceNo ∧ priceNo ≤ 1 ∧
      priceYes + priceNo = 1) ∧
    (qYes < 0 ∨ qNo < 0 →
      Price b qYes qNo = Except.error Err.negativeQuantities) := by
  clear hb
  constructor
  · intro hY hN
    refine ⟨_, _, Price_ok b qYes qNo hY hN, ?_, ?_, ?_, ?_, ?_⟩
    · positivity
    · rw [div_le_one (by positivity)]
      linarith [Real.exp_pos (qNo / b)]
    · positivity
    · rw [div_le_one (by positivity)]
      linarith [Real.exp_pos (qYes / b)]
    · rw [div_add_div_same, div_self (by positivity)]
  · intro h
    unfold Price
    rw [if_pos h]

/-- C1 witness at `b = 1`, `qYes = qNo = 0`. -/
theorem price_range_and_sum_witness :
    0 < (1 : ℝ) ∧ (∃ priceYes priceNo : ℝ,
      Price 1 0 0 = Except.ok (priceYes, priceNo) ∧
      0 ≤ priceYes ∧ priceYes ≤ 1 ∧ 0 ≤ priceNo ∧ priceNo ≤ 1 ∧
      priceYes + priceNo = 1) :=
  ⟨by norm_num, (price_range_and_sum 1 0 0 (by norm_num)).1 le_rfl le_rfl⟩

/-- C3: for every `b > 0`, starting state `qYes, qNo ≥ 0` and `amount > 0`,
selling `amount` tokens of an outcome from the post-buy state returns exactly
the cost of buying them from the starting state (the float model loses no
rounding, so "within 1 unit" holds with slack 0), and the post-buy-then-sell
quantities are the starting ones. -/
theorem buy_sell_roundtrip (b qYes qNo amount : ℝ) (hb : 0 < b)
    (hY : 0 ≤ qYes) (hN : 0 ≤ qNo) (ha : 0 < amount) :
    CalculateSellReturn b (qYes + amount) qNo amount "YES" =
      CalculateCost b qYes qNo amount "YES" ∧
    CalculateSellReturn b qYes (qNo + amount) amount "NO" =
      CalculateCost b qYes qNo amount "NO" ∧
    qYes + amount - amount = qYes ∧ qNo + amount - amount = qNo := by
  clear hb
  refine ⟨?_, ?_, add_sub_cancel_right qYes amount,
    add_sub_cancel_right qNo amount⟩
  · rw [CalculateSellReturn_yes_ok b (qYes + amount) qNo amount ha
      (by linarith) hN, CalculateCost_yes b qYes qNo amount ha hY hN,
      add_sub_cancel_right]
  · rw [CalculateSellReturn_no_ok b qYes (qNo + amount) amount ha
      (by linarith) hY, CalculateCost_no b qYes qNo amount ha hY hN,
      add_sub_cancel_right]

/-- C3 witness at `b = 1`, `qYes = qNo = 0`, `amount = 1`. -/
theorem buy_sell_roundtrip_witness :
    CalculateSellReturn 1 (0 + 1) 0 1 "YES" = CalculateCost 1 0 0 1 "YES" ∧
    CalculateSellReturn 1 0 (0 + 1) 1 "NO" = CalculateCost 1 0 0 1 "NO" :=
  ⟨(buy_sell_roundtrip 1 0 0 1 (by norm_num) le_rfl le_rfl (by norm_num)).1,
   (buy_sell_roundtrip 1 0 0 1 (by norm_num) le_rfl le_rfl
     (by norm_num)).2.1⟩

/-- C4: from the empty state `(0, 0)` the cost of buying `amount` YES tokens
equals the cost of buying `amount` NO tokens. -/
theorem cost_symmetric_from_empty (b amount : ℝ) (hb : 0 < b)
    (ha : 0 < amount) :
    CalculateCost b 0 0 amount "YES" = CalculateCost b 0 0 amount "NO" := by
  clear hb
  rw [CalculateCost_yes b 0 0 amount ha le_rfl le_rfl,
    CalculateCost_no b 0 0 amount ha le_rfl le_rfl, cost_comm b (0 + amount) 0]

/-- C4 witness at `b = 1`, `amount = 1`. -/
theorem cost_symmetric_from_empty_witness :
    CalculateCost 1 0 0 1 "YES" = CalculateCost 1 0 0 1 "NO" :=
  cost_symmetric_from_empty 1 1 (by norm_num) (by norm_num)

/-- C5: for `b > 0` and fixed `qNo ≥ 0`, the YES price returned by
`Calculator.Price` is monotone non-decreasing in `qYes`. -/
theorem price_yes_monotone (b qNo q1 q2 : ℝ) (hb : 0 < b) (h1 : 0 ≤ q1)
    (h12 : q1 ≤ q2) (hNo : 0 ≤ qNo) :
    ∃ pY1 pN1 pY2 pN2 : ℝ,
      Price b q1 qNo = Except.ok (pY1, pN1) ∧
      Price b q2 qNo = Except.ok (pY2, pN2) ∧ pY1 ≤ pY2 := by
  refine ⟨_, _, _, _, Price_ok b q1 qNo h1 hNo,
    Price_ok b q2 qNo (h1.trans h12) hNo, ?_⟩
  have hle : Real.exp (q1 / b) ≤ Real.exp (q2 / b) := by
    apply Real.exp_le_exp.mpr
    gcongr
  rw [div_le_div_iff₀ (by positivity) (by positivity)]
  nlinarith [Real.exp_pos (qNo / b),
    mul_le_mul_of_nonneg_right hle (Real.exp_pos (qNo / b)).le]

/-- C5 witness at `b = 1`, `qNo = 0`, `qYes1 = 0 ≤ qYes2 = 1`. -/
theorem price_yes_monotone_witness :
    ∃ pY1 pN1 pY2 pN2 : ℝ,
      Price 1 0 0 = Except.ok (pY1, pN1) ∧
      Price 1 1 0 = Except.ok (pY2, pN2) ∧ pY1 ≤ pY2 :=
  price_yes_monotone 1 0 0 1 (by norm_num) le_rfl (by norm_num) le_rfl

/-- C6: for `b > 0`, `qYes, qNo ≥ 0` and `0 < amount`: a covered sell of
either outcome returns exactly the decrease `C(qYes, qNo) − C(q − amount·e)`
of the LMSR cost function, and a sell of more than the outstanding quantity
fails with `ErrInsufficientTokens`. -/
theorem sell_return_cost_decrease (b qYes qNo amount : ℝ) (hb : 0 < b)
    (hY : 0 ≤ qYes) (hN : 0 ≤ qNo) (ha : 0 < amount) :
    (amount ≤ qYes → CalculateSellReturn b qYes qNo amount "YES" =
      Except.ok (costSpec b qYes qNo - costSpec b (qYes - amount) qNo)) ∧
    (qYes < amount → CalculateSellReturn b qYes qNo amount "YES" =
      Except.error Err.insufficientTokens) ∧
    (amount ≤ qNo → CalculateSellReturn b qYes qNo amount "NO" =
      Except.ok (costSpec b qYes qNo - costSpec b qYes (qNo - amount))) ∧
    (qNo < amount → CalculateSellReturn b qYes qNo amount "NO" =
      Except.error Err.insufficientTokens) := by
  refine ⟨?_, ?_, ?_, ?_⟩
  · intro h
    rw [CalculateSellReturn_yes_ok b qYes qNo amount ha h hN,
      cost_eq_costSpec b qYes qNo hb.ne',
      cost_eq_costSpec b (qYes - amount) qNo hb.ne']
  · intro h
    exact CalculateSellReturn_yes_err b qYes qNo amount ha h hY hN
  · intro h
    rw [CalculateSellReturn_no_ok b qYes qNo amount ha h hY,
      cost_eq_costSpec b qYes qNo hb.ne',
      cost_eq_costSpec b qYes (qNo - amount) hb.ne']
  · intro h
    exact CalculateSellReturn_no_err b qYes qNo amount ha h hY hN

/-- C6 witness at `b = 1`, `qYes = 1`, `qNo = 0`, `amount = 1`: the covered
YES sell pays the `costSpec` decrease and the uncovered NO sell fails. -/
theorem sell_return_cost_decrease_witness :
    CalculateSellReturn 1 1 0 1 "YES" =
      Except.ok (costSpec 1 1 0 - costSpec 1 (1 - 1) 0) ∧
    CalculateSellReturn 1 1 0 1 "NO" =
      Except.error Err.insufficientTokens :=
  ⟨(sell_return_cost_decrease 1 1 0 1 (by norm_num) (by norm_num) le_rfl
      (by norm_num)).1 le_rfl,
   (sell_return_cost_decrease 1 1 0 1 (by norm_num) (by norm_num) le_rfl
      (by norm_num)).2.2.2 (by norm_num)⟩

end lmsr

namespace model

/-- `ValidateStellarPublicKey` succeeds exactly when the trimmed key has
(byte) length 56 and starts with `"G"`. -/
theorem validateKey_none_iff (key : String) :
    ValidateStellarPublicKey key = none ↔
      utf8Len (trimSpace key) = 56 ∧
      goStartsWith (trimSpace key) "G" = true := by
  unfold ValidateStellarPublicKey
  split_ifs with h1 h2
  · simp [h1]
  · simp at h2
    simp [h2]
  · simp at h1 h2
    simp [h1, h2]

end model

namespace service

/-- `TradeRequest.Validate` succeeds exactly when every field check of the
source passes: public key, contract ID (via the supplied validator `cv`),
outcome, share amount, slippage. -/
theorem validate_none_iff (r : TradeRequest)
    (cv : String → Option model.Err) :
    r.Validate cv = none ↔
      model.ValidateStellarPublicKey r.UserPublicKey = none ∧
      cv r.ContractID = none ∧
      model.OutcomeIsValid r.Outcome = true ∧
      0 < r.ShareAmount ∧
      0 < r.Slippage ∧ r.Slippage ≤ model.MaxSlippage := by
  unfold TradeRequest.Validate
  rcases hpk : model.ValidateStellarPublicKey r.UserPublicKey with _ | e
  · rcases hcv : cv r.ContractID with _ | e
    · simp only []
      split_ifs with h1 h2 h3
      · simp only [Bool.not_eq_eq_eq_not, Bool.not_true] at h1
        simp [h1]
      · constructor
        · intro hx
          exact absurd hx (by simp)
        · rintro ⟨-, -, -, h4, -, -⟩
          linarith
      · constructor
        · intro hx
          exact absurd hx (by simp)
        · rintro ⟨-, -, -, -, h5, h6⟩
          rcases h3 with h3 | h3 <;> linarith
      · push_neg at h3
        simp at h1
        simp [h1, not_le.mp h2, h3.1, h3.2]
    · simp
  · simp

/-- `TradeRequest.Validate` returns `ErrInvalidSlippage` when the earlier
field checks pass and the slippage is outside `(0, MaxSlippage]`. -/
theorem validate_bad_slippage (r : TradeRequest)
    (cv : String → Option model.Err)
    (hpk : model.ValidateStellarPublicKey r.UserPublicKey = none)
    (hcv : cv r.ContractID = none)
    (hout : model.OutcomeIsValid r.Outcome = true)
    (hamt : 0 < r.ShareAmount)
    (hsl : r.Slippage ≤ 0 ∨ r.Slippage > model.MaxSlippage) :
    r.Validate cv = some model.Err.invalidSlippage := by
  unfold TradeRequest.Validate
  simp only [hpk, hcv]
  rw [if_neg (by simp [hout]), if_neg (not_le.mpr hamt), if_pos hsl]

/-- `TradeRequest.Validate` returns `ErrInvalidShareAmount` when the earlier
field checks pass and the share amount is non-positive. -/
theorem validate_bad_amount (r : TradeRequest)
    (cv : String → Option model.Err)
    (hpk : model.ValidateStellarPublicKey r.UserPublicKey = none)
    (hcv : cv r.ContractID = none)
    (hout : model.OutcomeIsValid r.Outcome = true)
    (hamt : r.ShareAmount ≤ 0) :
    r.Validate cv = some model.Err.invalidShareAmount := by
  unfold TradeRequest.Validate
  simp only [hpk, hcv]
  rw [if_neg (by simp [hout]), if_pos hamt]

/-- C7: a non-positive amount is always rejected: `Calculator.CalculateCost`
returns `ErrNegativeAmount` for `amount ≤ 0` in any state and for any
outcome string, and `TradeRequest.Validate` never succeeds on
`ShareAmount ≤ 0`, answering `ErrInvalidShareAmount` once the earlier field
checks (public key, contract ID, outcome — run first in the source) pass. -/
theorem nonpositive_amount_rejected :
    (∀ (b qYes qNo amount : ℝ) (outcome : String), amount ≤ 0 →
      lmsr.CalculateCost b qYes qNo amount outcome =
        Except.error lmsr.Err.negativeAmount) ∧
    (∀ (cv : String → Option model.Err) (r : TradeRequest),
      r.ShareAmount ≤ 0 →
      r.Validate cv ≠ none ∧
      (model.ValidateStellarPublicKey r.UserPublicKey = none →
        cv r.ContractID = none →
        model.OutcomeIsValid r.Outcome = true →
        r.Validate cv = some model.Err.invalidShareAmount)) := by
  constructor
  · intro b qYes qNo amount outcome h
    unfold lmsr.CalculateCost
    rw [if_pos h]
  · intro cv r hamt
    constructor
    · intro hnone
      have h := ((validate_none_iff r cv).mp hnone).2.2.2.1
      linarith
    · intro hpk hcv hout
      exact validate_bad_amount r cv hpk hcv hout hamt

/-- C7 witness: `CalculateCost` at `amount = 0`, and a trade request with a
valid key, contract, and outcome but `ShareAmount = 0`. -/
theorem nonpositive_amount_rejected_witness :
    lmsr.CalculateCost 1 0 0 0 "YES" = Except.error lmsr.Err.negativeAmount ∧
    TradeRequest.Validate
      ⟨"GCEZWKCA5VLDNRLN3RPRJMRZOX3Z6G5CHCGSNFHEYVXM3XOJMDS674JZ", "C",
        "YES", 0, 0.01⟩ (fun _ => none) =
      some model.Err.invalidShareAmount :=
  ⟨nonpositive_amount_rejected.1 1 0 0 0 "YES" le_rfl,
   (nonpositive_amount_rejected.2 (fun _ => none)
      ⟨"GCEZWKCA5VLDNRLN3RPRJMRZOX3Z6G5CHCGSNFHEYVXM3XOJMDS674JZ", "C",
        "YES", 0, 0.01⟩ le_rfl).2 (by decide) rfl (by decide)⟩

/-- C10: `TradeRequest.Validate` succeeds only when the trimmed user key has
length 56 and prefix `"G"`, the outcome is YES or NO, the share amount is
positive, and the slippage lies in `(0, MaxSlippage]` with
`MaxSlippage = 0.10`; a slippage outside that interval is always rejected,
with `ErrInvalidSlippage` once the earlier field checks pass. -/
theorem validate_nil_conditions (cv : String → Option model.Err)
    (r : TradeRequest) :
    (r.Validate cv = none →
      model.utf8Len (model.trimSpace r.UserPublicKey) = 56 ∧
      model.goStartsWith (model.trimSpace r.UserPublicKey) "G" = true ∧
      model.OutcomeIsValid r.Outcome = true ∧
      0 < r.ShareAmount ∧
      0 < r.Slippage ∧ r.Slippage ≤ model.MaxSlippage) ∧
    (r.Slippage ≤ 0 ∨ r.Slippage > model.MaxSlippage →
      r.Validate cv ≠ none ∧
      (model.ValidateStellarPublicKey r.UserPublicKey = none →
        cv r.ContractID = none →
        model.OutcomeIsValid r.Outcome = true →
        0 < r.ShareAmount →
        r.Validate cv = some model.Err.invalidSlippage)) ∧
    model.MaxSlippage = 0.10 := by
  refine ⟨?_, ?_, rfl⟩
  · intro hnone
    obtain ⟨hpk, -, hout, hamt, hsl⟩ := (validate_none_iff r cv).mp hnone
    obtain ⟨hlen, hpre⟩ := (model.validateKey_none_iff r.UserPublicKey).mp hpk
    exact ⟨hlen, hpre, hout, hamt, hsl⟩
  · intro hsl
    constructor
    · intro hnone
      obtain ⟨-, -, -, -, h5, h6⟩ := (validate_none_iff r cv).mp hnone
      rcases hsl with h | h <;> linarith
    · intro hpk hcv hout hamt
      exact validate_bad_slippage r cv hpk hcv hout hamt hsl

/-- C10 witness: a request that is valid except for a 20% slippage. -/
theorem validate_nil_conditions_witness :
    ((0.2 : ℝ) ≤ 0 ∨ (0.2 : ℝ) > model.MaxSlippage) ∧
    TradeRequest.Validate
      ⟨"GCEZWKCA5VLDNRLN3RPRJMRZOX3Z6G5CHCGSNFHEYVXM3XOJMDS674JZ", "C",
        "YES", 1, 0.2⟩ (fun _ => none) =
      some model.Err.invalidSlippage := by
  have hsl : ((0.2 : ℝ) ≤ 0 ∨ (0.2 : ℝ) > model.MaxSlippage) :=
    Or.inr (by norm_num [model.MaxSlippage])
  exact ⟨hsl,
    ((validate_nil_conditions (fun _ => none)
        ⟨"GCEZWKCA5VLDNRLN3RPRJMRZOX3Z6G5CHCGSNFHEYVXM3XOJMDS674JZ", "C",
          "YES", 1, 0.2⟩).2.1 hsl).2 (by decide) rfl (by decide)
      (by norm_num)⟩

/-- C2 counterexample: with `b = 1` and funding `0.699`, the funding strictly
exceeds the worst-case-loss floor `b · ln 2 ≈ 0.6931`, yet
`DeployMarketRequest.Validate` rejects the request, because the source
compares against `0.7 · b`, not against the `ln 2` floor. -/
theorem deploy_validate_not_ln2_floor :
    1 * Real.log 2 < (0.699 : ℝ) ∧
    DeployMarketRequest.Validate ⟨1, "x", 0.699⟩ =
      some DeployErr.fundingTooLow := by
  constructor
  · have h := Real.log_two_lt_d9
    norm_num at h ⊢
    linarith
  · unfold DeployMarketRequest.Validate
    rw [if_neg (by norm_num), if_neg (by decide), if_pos (by norm_num)]

/-- C2 amended: for `b > 0` and a non-empty metadata hash, the deploy-market
validation succeeds iff the initial funding is at least `0.7 · b` — a fixed
70% proxy for the `b · ln 2 ≈ 0.693 · b` worst-case-loss floor, accepted
inclusively at the bound. -/
theorem deploy_validate_iff (r : DeployMarketRequest)
    (hb : 0 < r.LiquidityParam) (hm : r.MetadataHash ≠ "") :
    r.Validate = none ↔ r.LiquidityParam * 0.7 ≤ r.InitialFunding := by
  unfold DeployMarketRequest.Validate
  rw [if_neg (not_le.mpr hb), if_neg hm]
  split_ifs with h
  · constructor
    · intro hx
      exact absurd hx (by simp)
    · intro hx
      linarith
  · exact ⟨fun _ => not_lt.mp h, fun _ => rfl⟩

/-- C2 amended witness: `b = 1`, funding exactly `0.7` is accepted. -/
theorem deploy_validate_iff_witness :
    0 < (1 : ℝ) ∧ ("x" : String) ≠ "" ∧
    DeployMarketRequest.Validate ⟨1, "x", 0.7⟩ = none :=
  ⟨by norm_num, by decide,
    (deploy_validate_iff ⟨1, "x", 0.7⟩ (by norm_num) (by decide)).mpr
      (by norm_num)⟩

/-- The clamp is strictly positive. -/
theorem clamp01_pos (price : ℝ) : 0 < clamp01 price := by
  unfold clamp01
  split_ifs with h
  · norm_num
  · linarith [not_lt.mp h]

/-- Clamping and normalizing any two reals yields two positive numbers
summing exactly to `1`. -/
theorem clamp01_norm (x y : ℝ) :
    0 < clamp01 x / (clamp01 x + clamp01 y) ∧
    0 < clamp01 y / (clamp01 x + clamp01 y) ∧
    clamp01 x / (clamp01 x + clamp01 y) +
      clamp01 y / (clamp01 x + clamp01 y) = 1 := by
  have ha := clamp01_pos x
  have hb := clamp01_pos y
  exact ⟨div_pos ha (add_pos ha hb), div_pos hb (add_pos ha hb),
    by rw [div_add_div_same, div_self (ne_of_gt (add_pos ha hb))]⟩

/-- C8: for non-negative quantities, `calculatePrices` returns two strictly
positive prices summing exactly to `1`, and `(0.5, 0.5)` on the fresh state
`(0, 0)`; `b` is not an argument of the estimator. -/
theorem calculatePrices_pos_sum_one (yesSold noSold : Int)
    (hY : 0 ≤ yesSold) (hN : 0 ≤ noSold) :
    0 < (calculatePrices yesSold noSold).1 ∧
    0 < (calculatePrices yesSold noSold).2 ∧
    (calculatePrices yesSold noSold).1 +
      (calculatePrices yesSold noSold).2 = 1 ∧
    calculatePrices 0 0 = (0.5, 0.5) := by
  clear hY hN
  have base : calculatePrices 0 0 = (0.5, 0.5) := by
    unfold calculatePrices
    rw [if_pos ⟨rfl, rfl⟩]
  have main : 0 < (calculatePrices yesSold noSold).1 ∧
      0 < (calculatePrices yesSold noSold).2 ∧
      (calculatePrices yesSold noSold).1 +
        (calculatePrices yesSold noSold).2 = 1 := by
    unfold calculatePrices
    split_ifs with h1 h2
    · norm_num
    · norm_num
    · exact ⟨(clamp01_norm _ _).1, (clamp01_norm _ _).2.1,
        (clamp01_norm _ _).2.2⟩
  exact ⟨main.1, main.2.1, main.2.2, base⟩

/-- C8 witness at `(yesSold, noSold) = (3, 5)`. -/
theorem calculatePrices_pos_sum_one_witness :
    0 ≤ (3 : ℤ) ∧ 0 ≤ (5 : ℤ) ∧
    (0 < (calculatePrices 3 5).1 ∧
     0 < (calculatePrices 3 5).2 ∧
     (calculatePrices 3 5).1 + (calculatePrices 3 5).2 = 1 ∧
     calculatePrices 0 0 = (0.5, 0.5)) :=
  ⟨by norm_num, by norm_num,
    calculatePrices_pos_sum_one 3 5 (by norm_num) (by norm_num)⟩

end service

namespace soroban

/-- C9: decoding the SCVal produced by encoding any `int64` value returns
that value with no error, including negatives and the extremes
`MinInt64 = -2^63` and `MaxInt64 = 2^63 - 1`. -/
theorem decode_encode_i128 (value : Int) (hlo : -(2 ^ 63) ≤ value)
    (hhi : value < 2 ^ 63) :
    DecodeI128 (EncodeI128 value) = Except.ok value := by
  unfold EncodeI128
  by_cases h : 0 ≤ value
  · rw [if_pos h]
    have hmod : value % 2 ^ 64 = value := by omega
    rw [hmod]
    rw [show DecodeI128 (ScVal.i128 0 value) =
        (if (0 : Int) = 0 ∧ value ≤ 2 ^ 63 - 1 then Except.ok value
         else if (0 : Int) = -1 ∧ value > 2 ^ 63 - 1 then
           Except.ok (value - 2 ^ 64)
         else Except.error "I128 value too large for int64") from rfl]
    rw [if_pos ⟨rfl, by omega⟩]
  · rw [if_neg h]
    have hmod : value % 2 ^ 64 = value + 2 ^ 64 := by omega
    rw [hmod]
    rw [show DecodeI128 (ScVal.i128 (-1) (value + 2 ^ 64)) =
        (if (-1 : Int) = 0 ∧ value + 2 ^ 64 ≤ 2 ^ 63 - 1 then
           Except.ok (value + 2 ^ 64)
         else if (-1 : Int) = -1 ∧ value + 2 ^ 64 > 2 ^ 63 - 1 then
           Except.ok (value + 2 ^ 64 - 2 ^ 64)
         else Except.error "I128 value too large for int64") from rfl]
    rw [if_neg (by rintro ⟨hc, -⟩; exact absurd hc (by norm_num)),
      if_pos ⟨rfl, by omega⟩, add_sub_cancel_right]

/-- C9 witness at `MinInt64` and `MaxInt64`. -/
theorem decode_encode_i128_witness :
    DecodeI128 (EncodeI128 (-(2 ^ 63))) = Except.ok (-(2 ^ 63)) ∧
    DecodeI128 (EncodeI128 (2 ^ 63 - 1)) = Except.ok (2 ^ 63 - 1) :=
  ⟨decode_encode_i128 (-(2 ^ 63)) le_rfl (by norm_num),
   decode_encode_i128 (2 ^ 63 - 1) (by norm_num) (by norm_num)⟩

end soroban
